import Mathlib

/-!
Shallow embedding of `src/quality_monitor.py` (galafis/Data-Quality-Monitor).

The rule-evaluation engine (`run_quality_checks`), the five checkers
(`_check_nulls`, `_check_format`, `_check_range`, `_check_uniqueness`,
`_check_foreign_key`) and the basic counts of the profiler (`profile_data`)
are translated into executable Lean definitions.

Modelling conventions:
* A column is a `List (Option Val)`; `none` is SQL `NULL`.  A table is a
  named list of columns; since every SQL column has one value per row,
  `COUNT(*)` over a table equals the length of any of its column lists.
* Machine floats of the source are modelled by exact rationals `ℚ`.
* The Python call `re.match` is modelled for the anchor shapes that occur in the
  program: a pattern is an anchor-free core regular expression plus a flag
  recording whether the pattern ends in the `$` end-of-string anchor.
  `re.match` tries the pattern at position 0 only, so without `$` it
  succeeds on any matching prefix, and with `$` it must consume the whole
  string.  Core matching is by Brzozowski derivatives.
* Exceptions raised by the Python code (table validation failures, a `None`
  pattern reaching `re.match`, a missing column in a query) are modelled by
  `Except String`, with the message strings standing in for `str(e)`.
-/

/-- Anchor-free regular expressions, matched with Brzozowski derivatives. -/
inductive RE where
  | fail
  | eps
  | pred (p : Char → Bool)
  | cat (a b : RE)
  | alt (a b : RE)
  | star (r : RE)

def RE.nullable : RE → Bool
  | .fail => false
  | .eps => true
  | .pred _ => false
  | .cat a b => a.nullable && b.nullable
  | .alt a b => a.nullable || b.nullable
  | .star _ => true

def RE.deriv : RE → Char → RE
  | .fail, _ => .fail
  | .eps, _ => .fail
  | .pred p, c => if p c then .eps else .fail
  | .cat a b, c =>
      if a.nullable then .alt (.cat (a.deriv c) b) (b.deriv c)
      else .cat (a.deriv c) b
  | .alt a b, c => .alt (a.deriv c) (b.deriv c)
  | .star r, c => .cat (r.deriv c) (.star r)

/-- Whole-string matching of the anchor-free core. -/
def RE.fullMatch (r : RE) (s : List Char) : Bool :=
  (s.foldl RE.deriv r).nullable

/-- A compiled Python pattern as used through `re.match`: an anchor-free
core plus whether the pattern ends with the `$` end-of-string anchor.
(`re.match` anchors the start by itself, so a leading `^` is absorbed.) -/
structure PyPattern where
  core : RE
  anchorEnd : Bool

/-- Model of `re.match(pattern, s)` viewed as a Boolean: with a trailing `$` the
core must consume all of `s`; without it, any prefix of `s` may match. -/
def reMatch (p : PyPattern) (s : String) : Bool :=
  if p.anchorEnd then p.core.fullMatch s.data
  else (s.data.inits.any fun t => p.core.fullMatch t)

/-- Concrete pattern from claim C2, `^[0-9]+$`: one or more digits, end-anchored. -/
def pyDigitsFull : PyPattern :=
  { core := RE.cat (RE.pred Char.isDigit) (RE.star (RE.pred Char.isDigit))
    anchorEnd := true }

/-- SQLite storage values (`NULL` is `Option.none` around this type). -/
inductive Val where
  | int (n : ℤ)
  | real (q : ℚ)
  | str (s : String)
deriving DecidableEq

/-- Canonical key realising SQLite equality: integers and reals compare
numerically, text compares as text, and the two classes never meet. -/
def Val.key : Val → ℚ ⊕ String
  | .int n => Sum.inl (n : ℚ)
  | .real q => Sum.inl q
  | .str s => Sum.inr s

/-- SQLite `=` between non-NULL storage values. -/
def Val.sqlEq (a b : Val) : Bool := a.key = b.key

/-- SQLite `<` between non-NULL storage values: numerics compare
numerically, every numeric sorts before every text, text compares as text. -/
def Val.lt : Val → Val → Bool
  | .int a, .int b => a < b
  | .int a, .real b => (a : ℚ) < b
  | .real a, .int b => a < (b : ℚ)
  | .real a, .real b => a < b
  | .int _, .str _ => true
  | .real _, .str _ => true
  | .str _, .int _ => false
  | .str _, .real _ => false
  | .str a, .str b => a < b

/-- The SQL predicate `col IS NULL OR col = ''` used by the null checker
and the profiler. -/
def isNullish : Option Val → Bool
  | none => true
  | some v => v.sqlEq (.str "")

/-- Python `str(value)` for the storage values the format checker sees. -/
def pyStr : Val → String
  | .int n => toString n
  | .real q => toString q
  | .str s => s

/-- Two-decimal rendering of a non-negative rational, modelling the
`{pct:.2f}` format of the detail strings. -/
def fmt2 (q : ℚ) : String :=
  let m := (round (q * 100) : ℤ).toNat
  toString (m / 100) ++ "." ++ (if m % 100 < 10 then "0" else "") ++ toString (m % 100)

/-- The guarded percentage `(num / den * 100) if den > 0 else 0` used by
four of the five checkers. -/
def pctOf (num den : ℕ) : ℚ :=
  if 0 < den then (num : ℚ) / (den : ℚ) * 100 else 0

inductive Status where
  | pass
  | fail
  | error
deriving DecidableEq

/-- Status computed as PASS when the metric is at most the threshold, else FAIL. -/
def statusOf (pct threshold : ℚ) : Status :=
  if pct ≤ threshold then .pass else .fail

structure CheckResult where
  metric_value : ℚ
  status : Status
  details : String
deriving DecidableEq

/-- Count of rows with `col IS NULL OR col = ''`. -/
def nullishCount (col : List (Option Val)) : ℕ := (col.filter isNullish).length

/-- Count of rows with `col IS NOT NULL`. -/
def nonNullCount (col : List (Option Val)) : ℕ := (col.filterMap id).length

/-- Model of `COUNT(DISTINCT col) ... WHERE col IS NOT NULL` under SQLite equality. -/
def distinctCount (col : List (Option Val)) : ℕ :=
  ((col.filterMap id).map Val.key).dedup.length

/-- Model of `_check_nulls`: null percentage over all rows. -/
def checkNulls (col : List (Option Val)) (threshold : ℚ) : CheckResult :=
  let total := col.length
  let nulls := nullishCount col
  let pct := pctOf nulls total
  { metric_value := pct
    status := statusOf pct threshold
    details := toString nulls ++ "/" ++ toString total ++ " null values (" ++ fmt2 pct ++ "%)" }

/-- The values the format checker fetches:
`WHERE col IS NOT NULL AND col != ''`. -/
def formatValues (col : List (Option Val)) : List Val :=
  (col.filterMap id).filter fun v => !(v.sqlEq (.str ""))

/-- Count of fetched values whose rendering does not match the pattern. -/
def formatInvalidCount (col : List (Option Val)) (p : PyPattern) : ℕ :=
  ((formatValues col).filter fun v => !(reMatch p (pyStr v))).length

/-- Model of `_check_format`: share of fetched values whose rendering under
`str` does not match the pattern via `re.match`.  An absent pattern, the
`None` that `config.get` returns, only raises when it reaches `re.match`,
that is, when there is at least one value to check. -/
def checkFormat (col : List (Option Val)) (pattern : Option PyPattern)
    (threshold : ℚ) : Except String CheckResult :=
  let values := formatValues col
  if values.isEmpty then
    .ok { metric_value := 0, status := .pass, details := "No values to check" }
  else
    match pattern with
    | none => .error "TypeError: first argument must be string or compiled pattern"
    | some p =>
      let invalid := formatInvalidCount col p
      let pct := (invalid : ℚ) / (values.length : ℚ) * 100
      .ok { metric_value := pct
            status := statusOf pct threshold
            details := toString invalid ++ "/" ++ toString values.length ++
              " invalid format (" ++ fmt2 pct ++ "%)" }

/-- The SQL condition `col < min OR col > max` (with only the supplied
bounds), which is never satisfied by a NULL value. -/
def rangeViolation (mn mx : Option Val) (v : Val) : Bool :=
  match mn, mx with
  | some a, some b => v.lt a || b.lt v
  | some a, none => v.lt a
  | none, some b => b.lt v
  | none, none => false

/-- Count of out-of-range rows. -/
def rangeViolationCount (col : List (Option Val)) (mn mx : Option Val) : ℕ :=
  ((col.filterMap id).filter (rangeViolation mn mx)).length

/-- Model of `_check_range`: out-of-range percentage over non-null rows; with
neither bound configured it returns early with a Pass. -/
def checkRange (col : List (Option Val)) (mn mx : Option Val)
    (threshold : ℚ) : CheckResult :=
  let total := nonNullCount col
  match mn, mx with
  | none, none => { metric_value := 0, status := .pass, details := "No range specified" }
  | _, _ =>
    let out := rangeViolationCount col mn mx
    let pct := pctOf out total
    { metric_value := pct
      status := statusOf pct threshold
      details := toString out ++ "/" ++ toString total ++ " out of range (" ++ fmt2 pct ++ "%)" }

/-- Duplicates as counted by `_check_uniqueness`: non-null count minus
distinct non-null count. -/
def dupCount (col : List (Option Val)) : ℕ := nonNullCount col - distinctCount col

/-- Model of `_check_uniqueness`. -/
def checkUniqueness (col : List (Option Val)) (threshold : ℚ) : CheckResult :=
  let total := nonNullCount col
  let dups := dupCount col
  let pct := pctOf dups total
  { metric_value := pct
    status := statusOf pct threshold
    details := toString dups ++ " duplicates (" ++ fmt2 pct ++ "%)" }

/-- Orphans as counted by the left join of `_check_foreign_key`: non-null
source values with no SQL-equal row in the reference column. -/
def orphanCount (col refCol : List (Option Val)) : ℕ :=
  ((col.filterMap id).filter fun v =>
    !((refCol.filterMap id).any fun r => v.sqlEq r)).length

/-- Model of `_check_foreign_key`. -/
def checkForeignKey (col refCol : List (Option Val)) (threshold : ℚ) : CheckResult :=
  let total := nonNullCount col
  let orphans := orphanCount col refCol
  let pct := pctOf orphans total
  { metric_value := pct
    status := statusOf pct threshold
    details := toString orphans ++ " orphan records (" ++ fmt2 pct ++ "%)" }

/-- A named table: columns with their row lists (rectangular by intent). -/
structure Table where
  cols : List (String × List (Option Val))
deriving DecidableEq

/-- The monitored database. -/
structure DB where
  tables : List (String × Table)
deriving DecidableEq

def DB.findTable (db : DB) (t : String) : Option Table :=
  (db.tables.find? fun p => p.1 = t).map fun p => p.2

/-- Model of `_validate_table_name`, including the call with a `None` argument that
`_check_foreign_key` makes when `reference_table` is missing: Python
renders the message as `Invalid table name: None`. -/
def validateTable (db : DB) (t : Option String) : Except String Unit :=
  match t with
  | none => .error "Invalid table name: None"
  | some name =>
    if (db.findTable name).isSome then .ok ()
    else .error ("Invalid table name: " ++ name)

/-- Fetch a column; a missing column makes the interpolated SQL fail with
an operational error, modelled by the message string. -/
def getColumn (db : DB) (t c : String) : Except String (List (Option Val)) :=
  match db.findTable t with
  | none => .error ("Invalid table name: " ++ t)
  | some tbl =>
    match tbl.cols.find? fun p => p.1 = c with
    | none => .error ("no such column: " ++ c)
    | some p => .ok p.2

/-- Kind-specific configuration parsed from the JSON blob of the rule; absent
keys are the `None` that `config.get(...)` returns. -/
structure RuleConfig where
  pattern : Option PyPattern
  min : Option Val
  max : Option Val
  reference_table : Option String
  reference_column : Option String

def RuleConfig.empty : RuleConfig :=
  { pattern := none, min := none, max := none
    reference_table := none, reference_column := none }

structure QualityRule where
  rule_id : ℕ
  table_name : String
  column_name : String
  rule_type : String
  config : RuleConfig
  threshold_value : ℚ

/-- One iteration of the dispatch in `run_quality_checks`: `none` is the
`continue` taken on an unrecognized rule type; `some (.error m)` is an
exception raised by the checker (caught by the engine); `some (.ok res)`
is a computed result. -/
def evalRule (db : DB) (r : QualityRule) : Option (Except String CheckResult) :=
  if r.rule_type = "null_check" then some (do
    validateTable db (some r.table_name)
    let col ← getColumn db r.table_name r.column_name
    pure (checkNulls col r.threshold_value))
  else if r.rule_type = "format_check" then some (do
    validateTable db (some r.table_name)
    let col ← getColumn db r.table_name r.column_name
    checkFormat col r.config.pattern r.threshold_value)
  else if r.rule_type = "range_check" then some (do
    validateTable db (some r.table_name)
    let col ← getColumn db r.table_name r.column_name
    pure (checkRange col r.config.min r.config.max r.threshold_value))
  else if r.rule_type = "uniqueness_check" then some (do
    validateTable db (some r.table_name)
    let col ← getColumn db r.table_name r.column_name
    pure (checkUniqueness col r.threshold_value))
  else if r.rule_type = "foreign_key_check" then some (do
    validateTable db (some r.table_name)
    validateTable db r.config.reference_table
    let col ← getColumn db r.table_name r.column_name
    match r.config.reference_table, r.config.reference_column with
    | some rt, some rc => do
      let refCol ← getColumn db rt rc
      pure (checkForeignKey col refCol r.threshold_value)
    | _, none => .error "no such column: None"
    | none, _ => .error "Invalid table name: None")
  else none

/-- A row inserted into `quality_results`. -/
structure PersistedResult where
  rule_id : ℕ
  table_name : String
  column_name : String
  metric_value : ℚ
  threshold_value : ℚ
  status : Status
  details : String
deriving DecidableEq

/-- An entry of the list `run_quality_checks` returns to its caller. -/
structure ReturnedResult where
  rule_id : ℕ
  table_name : String
  column_name : String
  rule_type : String
  metric_value : ℚ
  threshold_value : ℚ
  status : Status
  details : String
deriving DecidableEq

def persistOf (r : QualityRule) (res : CheckResult) : PersistedResult :=
  { rule_id := r.rule_id, table_name := r.table_name, column_name := r.column_name
    metric_value := res.metric_value, threshold_value := r.threshold_value
    status := res.status, details := res.details }

/-- The row the `except` branch inserts: status `ERROR`, metric 0, details
carrying `str(e)`. -/
def persistErr (r : QualityRule) (msg : String) : PersistedResult :=
  { rule_id := r.rule_id, table_name := r.table_name, column_name := r.column_name
    metric_value := 0, threshold_value := r.threshold_value
    status := .error, details := msg }

def returnOf (r : QualityRule) (res : CheckResult) : ReturnedResult :=
  { rule_id := r.rule_id, table_name := r.table_name, column_name := r.column_name
    rule_type := r.rule_type, metric_value := res.metric_value
    threshold_value := r.threshold_value, status := res.status, details := res.details }

structure RunOutput where
  returned : List ReturnedResult
  persisted : List PersistedResult
deriving DecidableEq

/-- Model of `run_quality_checks` over the active rules in the order the rule store
supplies them: an unrecognized kind is skipped, a successful check is both
persisted and appended to the returned list, and a caught exception is
persisted as an ERROR row but not appended to the returned list. -/
def runQualityChecks (db : DB) : List QualityRule → RunOutput
  | [] => { returned := [], persisted := [] }
  | r :: rest =>
    let tail := runQualityChecks db rest
    match evalRule db r with
    | none => tail
    | some (.ok res) =>
      { returned := returnOf r res :: tail.returned
        persisted := persistOf r res :: tail.persisted }
    | some (.error m) =>
      { returned := tail.returned
        persisted := persistErr r m :: tail.persisted }

/-- The persisted row a single rule contributes, if any. -/
def persistOfRule (db : DB) (r : QualityRule) : Option PersistedResult :=
  match evalRule db r with
  | none => none
  | some (.ok res) => some (persistOf r res)
  | some (.error m) => some (persistErr r m)

/-- The returned entry a single rule contributes, if any. -/
def returnOfRule (db : DB) (r : QualityRule) : Option ReturnedResult :=
  match evalRule db r with
  | some (.ok res) => some (returnOf r res)
  | _ => none

/-- The counting part of one `profile_data` column record: `COUNT(*)`,
`COUNT(*) WHERE col IS NULL OR col = ''`, and
`COUNT(DISTINCT col) WHERE col IS NOT NULL`. -/
structure ColumnProfile where
  total_count : ℕ
  null_count : ℕ
  unique_count : ℕ
deriving DecidableEq

def profileColumn (col : List (Option Val)) : ColumnProfile :=
  { total_count := col.length
    null_count := nullishCount col
    unique_count := distinctCount col }

/-- Whether a rule evaluates without raising. -/
def evalOk (db : DB) (r : QualityRule) : Bool :=
  match evalRule db r with
  | some (.ok _) => true
  | _ => false

/- Helper lemmas about the embedded definitions. -/

lemma statusOf_eq_pass_iff (pct th : ℚ) : statusOf pct th = Status.pass ↔ pct ≤ th := by
  unfold statusOf
  split <;> simp_all

lemma statusOf_ne_error (pct th : ℚ) : statusOf pct th ≠ Status.error := by
  unfold statusOf
  split <;> simp

lemma pctOf_zero_den (num : ℕ) : pctOf num 0 = 0 := by
  simp [pctOf]

lemma ratio_pct_bounds {num den : ℕ} (hle : num ≤ den) (hpos : 0 < den) :
    0 ≤ (num : ℚ) / (den : ℚ) * 100 ∧ (num : ℚ) / (den : ℚ) * 100 ≤ 100 := by
  have hden : (0 : ℚ) < (den : ℚ) := by exact_mod_cast hpos
  constructor
  · positivity
  · have h1 : (num : ℚ) / (den : ℚ) ≤ 1 := by
      rw [div_le_one hden]
      exact_mod_cast hle
    nlinarith

lemma pctOf_bounds {num den : ℕ} (hle : num ≤ den) :
    0 ≤ pctOf num den ∧ pctOf num den ≤ 100 := by
  unfold pctOf
  split
  · exact ratio_pct_bounds hle (by assumption)
  · norm_num

lemma checkNulls_def (col : List (Option Val)) (th : ℚ) :
    checkNulls col th =
      { metric_value := pctOf (nullishCount col) col.length
        status := statusOf (pctOf (nullishCount col) col.length) th
        details := toString (nullishCount col) ++ "/" ++ toString col.length ++
          " null values (" ++ fmt2 (pctOf (nullishCount col) col.length) ++ "%)" } := rfl

lemma checkUniqueness_def (col : List (Option Val)) (th : ℚ) :
    checkUniqueness col th =
      { metric_value := pctOf (dupCount col) (nonNullCount col)
        status := statusOf (pctOf (dupCount col) (nonNullCount col)) th
        details := toString (dupCount col) ++ " duplicates (" ++
          fmt2 (pctOf (dupCount col) (nonNullCount col)) ++ "%)" } := rfl

lemma checkForeignKey_def (col refCol : List (Option Val)) (th : ℚ) :
    checkForeignKey col refCol th =
      { metric_value := pctOf (orphanCount col refCol) (nonNullCount col)
        status := statusOf (pctOf (orphanCount col refCol) (nonNullCount col)) th
        details := toString (orphanCount col refCol) ++ " orphan records (" ++
          fmt2 (pctOf (orphanCount col refCol) (nonNullCount col)) ++ "%)" } := rfl

lemma checkRange_def (col : List (Option Val)) (mn mx : Option Val) (th : ℚ)
    (h : ¬(mn = none ∧ mx = none)) :
    checkRange col mn mx th =
      { metric_value := pctOf (rangeViolationCount col mn mx) (nonNullCount col)
        status := statusOf (pctOf (rangeViolationCount col mn mx) (nonNullCount col)) th
        details := toString (rangeViolationCount col mn mx) ++ "/" ++
          toString (nonNullCount col) ++ " out of range (" ++
          fmt2 (pctOf (rangeViolationCount col mn mx) (nonNullCount col)) ++ "%)" } := by
  cases mn <;> cases mx <;> simp_all <;> rfl

lemma checkRange_none_none (col : List (Option Val)) (th : ℚ) :
    checkRange col none none th =
      { metric_value := 0, status := .pass, details := "No range specified" } := rfl

lemma checkFormat_empty (col : List (Option Val)) (pat : Option PyPattern) (th : ℚ)
    (h : formatValues col = []) :
    checkFormat col pat th =
      .ok { metric_value := 0, status := .pass, details := "No values to check" } := by
  unfold checkFormat
  rw [if_pos]
  simpa [List.isEmpty_iff] using h

lemma checkFormat_some_def (col : List (Option Val)) (p : PyPattern) (th : ℚ)
    (h : formatValues col ≠ []) :
    checkFormat col (some p) th =
      .ok { metric_value := (formatInvalidCount col p : ℚ) / ((formatValues col).length : ℚ) * 100
            status := statusOf
              ((formatInvalidCount col p : ℚ) / ((formatValues col).length : ℚ) * 100) th
            details := toString (formatInvalidCount col p) ++ "/" ++
              toString (formatValues col).length ++ " invalid format (" ++
              fmt2 ((formatInvalidCount col p : ℚ) / ((formatValues col).length : ℚ) * 100) ++
              "%)" } := by
  unfold checkFormat
  rw [if_neg]
  simpa [List.isEmpty_iff] using h

lemma checkFormat_none_pattern (col : List (Option Val)) (th : ℚ)
    (h : formatValues col ≠ []) :
    checkFormat col none th =
      .error "TypeError: first argument must be string or compiled pattern" := by
  unfold checkFormat
  rw [if_neg]
  simpa [List.isEmpty_iff] using h

/-- Inversion for a successful format check: it came from the empty-values
branch or from an actual pattern. -/
lemma checkFormat_ok_cases {col : List (Option Val)} {pat : Option PyPattern} {th : ℚ}
    {res : CheckResult} (h : checkFormat col pat th = .ok res) :
    (formatValues col = [] ∧
      res = { metric_value := 0, status := .pass, details := "No values to check" }) ∨
    (formatValues col ≠ [] ∧ ∃ p, pat = some p ∧
      res.metric_value = (formatInvalidCount col p : ℚ) / ((formatValues col).length : ℚ) * 100 ∧
      res.status = statusOf res.metric_value th) := by
  by_cases he : formatValues col = []
  · left
    refine ⟨he, ?_⟩
    rw [checkFormat_empty col pat th he] at h
    exact (Except.ok.inj h).symm
  · right
    refine ⟨he, ?_⟩
    cases pat with
    | none =>
      rw [checkFormat_none_pattern col th he] at h
      cases h
    | some p =>
      refine ⟨p, rfl, ?_⟩
      rw [checkFormat_some_def col p th he] at h
      have := (Except.ok.inj h).symm
      subst this
      exact ⟨rfl, rfl⟩

lemma runQualityChecks_eq (db : DB) (rules : List QualityRule) :
    runQualityChecks db rules =
      { returned := rules.filterMap (returnOfRule db)
        persisted := rules.filterMap (persistOfRule db) } := by
  induction rules with
  | nil => rfl
  | cons r rest ih =>
    simp only [runQualityChecks, List.filterMap_cons, ih]
    unfold returnOfRule persistOfRule
    cases h : evalRule db r with
    | none => simp
    | some e => cases e <;> simp

lemma persisted_rule_ids (db : DB) (rules : List QualityRule) :
    (runQualityChecks db rules).persisted.map PersistedResult.rule_id =
      (rules.filter fun r => (evalRule db r).isSome).map QualityRule.rule_id := by
  induction rules with
  | nil => rfl
  | cons r rest ih =>
    simp only [runQualityChecks, List.filter_cons]
    cases h : evalRule db r with
    | none => simpa [h] using ih
    | some e =>
      cases e <;> simp [h, persistOf, persistErr, ih]

lemma returned_rule_ids (db : DB) (rules : List QualityRule) :
    (runQualityChecks db rules).returned.map ReturnedResult.rule_id =
      (rules.filter (evalOk db)).map QualityRule.rule_id := by
  induction rules with
  | nil => rfl
  | cons r rest ih =>
    simp only [runQualityChecks, List.filter_cons]
    cases h : evalRule db r with
    | none => simpa [evalOk, h] using ih
    | some e =>
      cases e <;> simp [evalOk, h, returnOf, ih]

lemma validateTable_of_getColumn {db : DB} {t c : String} {col : List (Option Val)}
    (h : getColumn db t c = .ok col) : validateTable db (some t) = .ok () := by
  unfold getColumn at h
  unfold validateTable
  cases hf : db.findTable t with
  | none => rw [hf] at h; cases h
  | some tbl => simp [hf]

lemma length_filterMap_id_add_count_none (col : List (Option Val)) :
    (col.filterMap id).length + col.count none = col.length := by
  induction col with
  | nil => rfl
  | cons o rest ih =>
    cases o with
    | none => simp [List.count_cons, ih]; omega
    | some v => simp [List.count_cons, ih]; omega

lemma distinctCount_le (col : List (Option Val)) :
    distinctCount col ≤ (col.filterMap id).length := by
  calc distinctCount col ≤ ((col.filterMap id).map Val.key).length :=
        (List.dedup_sublist _).length_le
    _ = (col.filterMap id).length := List.length_map _ _

lemma statusOf_zero_pass {th : ℚ} (hth : 0 ≤ th) : statusOf 0 th = Status.pass := by
  unfold statusOf
  rw [if_pos hth]

lemma except_bind_ok {α β : Type} (a : α) (f : α → Except String β) :
    (Except.ok a >>= f) = f a := rfl

/-- Decidable equality for `Except`, needed to evaluate engine outcomes. -/
instance {e a : Type} [DecidableEq e] [DecidableEq a] : DecidableEq (Except e a) := fun x y =>
  match x, y with
  | Except.ok u, Except.ok v =>
    if h : u = v then Decidable.isTrue (h ▸ rfl)
    else Decidable.isFalse (fun he => h (Except.ok.inj he))
  | Except.error u, Except.error v =>
    if h : u = v then Decidable.isTrue (h ▸ rfl)
    else Decidable.isFalse (fun he => h (Except.error.inj he))
  | Except.ok _, Except.error _ => Decidable.isFalse (fun he => Except.noConfusion he)
  | Except.error _, Except.ok _ => Decidable.isFalse (fun he => Except.noConfusion he)

/- Concrete fixtures used by witnesses and counterexamples. -/

def colAB : List (Option Val) := [some (Val.int 1), some (Val.int 2)]

def c2vals : List (Option Val) :=
  [some (Val.str "123"), some (Val.str "12a"), some (Val.str ""), none]

def uniqVals : List (Option Val) :=
  [some (Val.str "a"), some (Val.str "a"), some (Val.str "a"),
   some (Val.str "b"), some (Val.str "c")]

def fkSrc : List (Option Val) :=
  [some (Val.int 1), some (Val.int 2), some (Val.int 3), some (Val.int 99)]

def fkRef : List (Option Val) := [some (Val.int 1), some (Val.int 2), some (Val.int 3)]

def colThird : List (Option Val) := [some (Val.str ""), some (Val.str "x"), none]

def c8col : List (Option Val) := [some (Val.str ""), some (Val.str "x")]

def fmtRes : CheckResult :=
  { metric_value := 50, status := Status.fail, details := "1/2 invalid format (50.00%)" }

def dbT : DB := { tables := [("t", { cols := [("c", colAB)] })] }

def ruleNull (i : ℕ) : QualityRule :=
  { rule_id := i, table_name := "t", column_name := "c"
    rule_type := "null_check", config := RuleConfig.empty, threshold_value := 5 }

def badTableRule : QualityRule :=
  { rule_id := 7, table_name := "missing", column_name := "c"
    rule_type := "null_check", config := RuleConfig.empty, threshold_value := 5 }

def noPatternRule : QualityRule :=
  { rule_id := 4, table_name := "t", column_name := "c"
    rule_type := "format_check", config := RuleConfig.empty, threshold_value := 10 }

def unknownRule : QualityRule :=
  { rule_id := 9, table_name := "t", column_name := "c"
    rule_type := "bogus_check", config := RuleConfig.empty, threshold_value := 0 }

def noRefRule : QualityRule :=
  { rule_id := 6, table_name := "t", column_name := "c"
    rule_type := "foreign_key_check", config := RuleConfig.empty, threshold_value := 0 }

lemma pctOf_eval (num den : ℕ) (hd : 0 < den) :
    pctOf num den = (num : ℚ) / (den : ℚ) * 100 := by
  unfold pctOf
  rw [if_pos hd]

lemma fmt2_eq (q : ℚ) (m : ℕ) (h : round (q * 100) = (m : ℤ)) :
    fmt2 q = toString (m / 100) ++ "." ++
      (if m % 100 < 10 then "0" else "") ++ toString (m % 100) := by
  unfold fmt2
  rw [h]
  simp

lemma checkFormat_c2_eval : checkFormat c2vals (some pyDigitsFull) 10 = Except.ok fmtRes := by
  rw [checkFormat_some_def c2vals pyDigitsFull 10 (by decide)]
  have h1 : formatInvalidCount c2vals pyDigitsFull = 1 := by decide
  have h2 : (formatValues c2vals).length = 2 := by decide
  rw [h1, h2]
  have hpct : ((1 : ℕ) : ℚ) / ((2 : ℕ) : ℚ) * 100 = 50 := by norm_num
  rw [hpct]
  have hst : statusOf 50 10 = Status.fail := by
    unfold statusOf
    rw [if_neg (by norm_num)]
  have hf : fmt2 50 = "50.00" := by
    rw [fmt2_eq 50 5000 (by rw [round_eq]; norm_num)]
    decide
  rw [hst, hf]
  rfl

lemma checkUniqueness_uniqVals_eval :
    checkUniqueness uniqVals 1 =
      { metric_value := 40, status := Status.fail, details := "2 duplicates (40.00%)" } := by
  rw [checkUniqueness_def]
  have h1 : dupCount uniqVals = 2 := by decide
  have h2 : nonNullCount uniqVals = 5 := by decide
  rw [h1, h2]
  have hp : pctOf 2 5 = 40 := by
    rw [pctOf_eval 2 5 (by norm_num)]
    norm_num
  rw [hp]
  have hst : statusOf 40 1 = Status.fail := by
    unfold statusOf
    rw [if_neg (by norm_num)]
  have hf : fmt2 40 = "40.00" := by
    rw [fmt2_eq 40 4000 (by rw [round_eq]; norm_num)]
    decide
  rw [hst, hf]
  simp only [CheckResult.mk.injEq]
  exact ⟨trivial, trivial, by decide⟩

lemma checkForeignKey_fk_eval :
    checkForeignKey fkSrc fkRef 0 =
      { metric_value := 25, status := Status.fail, details := "1 orphan records (25.00%)" } := by
  rw [checkForeignKey_def]
  have h1 : orphanCount fkSrc fkRef = 1 := by decide
  have h2 : nonNullCount fkSrc = 4 := by decide
  rw [h1, h2]
  have hp : pctOf 1 4 = 25 := by
    rw [pctOf_eval 1 4 (by norm_num)]
    norm_num
  rw [hp]
  have hst : statusOf 25 0 = Status.fail := by
    unfold statusOf
    rw [if_neg (by norm_num)]
  have hf : fmt2 25 = "25.00" := by
    rw [fmt2_eq 25 2500 (by rw [round_eq]; norm_num)]
    decide
  rw [hst, hf]
  simp only [CheckResult.mk.injEq]
  exact ⟨trivial, trivial, by decide⟩

lemma checkNulls_colThird_eval :
    checkNulls colThird 50 =
      { metric_value := 200 / 3, status := Status.fail
        details := "2/3 null values (66.67%)" } := by
  rw [checkNulls_def]
  have h1 : nullishCount colThird = 2 := by decide
  have h2 : colThird.length = 3 := by decide
  rw [h1, h2]
  have hp : pctOf 2 3 = 200 / 3 := by
    rw [pctOf_eval 2 3 (by norm_num)]
    norm_num
  rw [hp]
  have hst : statusOf (200 / 3) 50 = Status.fail := by
    unfold statusOf
    rw [if_neg (by norm_num)]
  have hf : fmt2 (200 / 3) = "66.67" := by
    rw [fmt2_eq (200 / 3) 6667 (by rw [round_eq]; norm_num)]
    decide
  rw [hst, hf]
  simp only [CheckResult.mk.injEq]
  exact ⟨trivial, trivial, by decide⟩

/-- C1: for every checker result whose computation succeeds, the status is
Pass exactly when the metric value is at most the threshold (thresholds
are percentages, hence non-negative under the data model), otherwise Fail;
a successfully computed checker result never carries the Error status. -/
theorem checker_status_iff_threshold :
    (∀ col th, 0 ≤ th →
      (((checkNulls col th).status = Status.pass ↔ (checkNulls col th).metric_value ≤ th) ∧
        (checkNulls col th).status ≠ Status.error)) ∧
    (∀ col pat th res, 0 ≤ th → checkFormat col pat th = Except.ok res →
      ((res.status = Status.pass ↔ res.metric_value ≤ th) ∧ res.status ≠ Status.error)) ∧
    (∀ col mn mx th, 0 ≤ th →
      (((checkRange col mn mx th).status = Status.pass ↔
          (checkRange col mn mx th).metric_value ≤ th) ∧
        (checkRange col mn mx th).status ≠ Status.error)) ∧
    (∀ col th, 0 ≤ th →
      (((checkUniqueness col th).status = Status.pass ↔
          (checkUniqueness col th).metric_value ≤ th) ∧
        (checkUniqueness col th).status ≠ Status.error)) ∧
    (∀ col ref th, 0 ≤ th →
      (((checkForeignKey col ref th).status = Status.pass ↔
          (checkForeignKey col ref th).metric_value ≤ th) ∧
        (checkForeignKey col ref th).status ≠ Status.error)) := by
  refine ⟨?_, ?_, ?_, ?_, ?_⟩
  · intro col th _
    rw [checkNulls_def]
    exact ⟨statusOf_eq_pass_iff _ _, statusOf_ne_error _ _⟩
  · intro col pat th res hth hok
    rcases checkFormat_ok_cases hok with ⟨_, hres⟩ | ⟨_, p, _, _, hstat⟩
    · subst hres
      exact ⟨⟨fun _ => hth, fun _ => rfl⟩, by simp⟩
    · rw [hstat]
      exact ⟨statusOf_eq_pass_iff _ _, statusOf_ne_error _ _⟩
  · intro col mn mx th hth
    by_cases h : mn = none ∧ mx = none
    · rcases h with ⟨h1, h2⟩
      subst h1; subst h2
      rw [checkRange_none_none]
      exact ⟨⟨fun _ => hth, fun _ => rfl⟩, by simp⟩
    · rw [checkRange_def col mn mx th h]
      exact ⟨statusOf_eq_pass_iff _ _, statusOf_ne_error _ _⟩
  · intro col th _
    rw [checkUniqueness_def]
    exact ⟨statusOf_eq_pass_iff _ _, statusOf_ne_error _ _⟩
  · intro col ref th _
    rw [checkForeignKey_def]
    exact ⟨statusOf_eq_pass_iff _ _, statusOf_ne_error _ _⟩

theorem checker_status_iff_threshold_witness :
    (((checkNulls colAB 5).status = Status.pass ↔ (checkNulls colAB 5).metric_value ≤ 5) ∧
      (checkNulls colAB 5).status ≠ Status.error) ∧
    ((fmtRes.status = Status.pass ↔ fmtRes.metric_value ≤ 10) ∧
      fmtRes.status ≠ Status.error) ∧
    (((checkRange colAB (some (Val.int 0)) (some (Val.int 5)) 5).status = Status.pass ↔
        (checkRange colAB (some (Val.int 0)) (some (Val.int 5)) 5).metric_value ≤ 5) ∧
      (checkRange colAB (some (Val.int 0)) (some (Val.int 5)) 5).status ≠ Status.error) ∧
    (((checkUniqueness uniqVals 1).status = Status.pass ↔
        (checkUniqueness uniqVals 1).metric_value ≤ 1) ∧
      (checkUniqueness uniqVals 1).status ≠ Status.error) ∧
    (((checkForeignKey fkSrc fkRef 0).status = Status.pass ↔
        (checkForeignKey fkSrc fkRef 0).metric_value ≤ 0) ∧
      (checkForeignKey fkSrc fkRef 0).status ≠ Status.error) :=
  ⟨checker_status_iff_threshold.1 colAB 5 (by norm_num),
   checker_status_iff_threshold.2.1 c2vals (some pyDigitsFull) 10 fmtRes (by norm_num) checkFormat_c2_eval,
   checker_status_iff_threshold.2.2.1 colAB (some (Val.int 0)) (some (Val.int 5)) 5 (by norm_num),
   checker_status_iff_threshold.2.2.2.1 uniqVals 1 (by norm_num),
   checker_status_iff_threshold.2.2.2.2 fkSrc fkRef 0 (by norm_num)⟩

/-- C6: for every checker, a zero denominator (no rows for the null check,
no fetched values for the format check, no non-null rows for the range,
uniqueness and foreign-key checks) yields metric_value = 0 and status =
Pass, the threshold being a non-negative percentage. -/
theorem zero_denominator_pass :
    (∀ col th, 0 ≤ th → col.length = 0 →
      (checkNulls col th).metric_value = 0 ∧ (checkNulls col th).status = Status.pass) ∧
    (∀ col pat th, formatValues col = [] →
      checkFormat col pat th =
        Except.ok { metric_value := 0, status := Status.pass, details := "No values to check" }) ∧
    (∀ col mn mx th, 0 ≤ th → nonNullCount col = 0 →
      (checkRange col mn mx th).metric_value = 0 ∧
        (checkRange col mn mx th).status = Status.pass) ∧
    (∀ col th, 0 ≤ th → nonNullCount col = 0 →
      (checkUniqueness col th).metric_value = 0 ∧
        (checkUniqueness col th).status = Status.pass) ∧
    (∀ col ref th, 0 ≤ th → nonNullCount col = 0 →
      (checkForeignKey col ref th).metric_value = 0 ∧
        (checkForeignKey col ref th).status = Status.pass) := by
  refine ⟨?_, ?_, ?_, ?_, ?_⟩
  · intro col th hth hlen
    rw [checkNulls_def, hlen, pctOf_zero_den]
    exact ⟨rfl, statusOf_zero_pass hth⟩
  · intro col pat th h
    exact checkFormat_empty col pat th h
  · intro col mn mx th hth hnn
    by_cases h : mn = none ∧ mx = none
    · rcases h with ⟨h1, h2⟩
      subst h1; subst h2
      rw [checkRange_none_none]
      exact ⟨rfl, rfl⟩
    · rw [checkRange_def col mn mx th h, hnn, pctOf_zero_den]
      exact ⟨rfl, statusOf_zero_pass hth⟩
  · intro col th hth hnn
    rw [checkUniqueness_def, hnn, pctOf_zero_den]
    exact ⟨rfl, statusOf_zero_pass hth⟩
  · intro col ref th hth hnn
    rw [checkForeignKey_def, hnn, pctOf_zero_den]
    exact ⟨rfl, statusOf_zero_pass hth⟩

theorem zero_denominator_pass_witness :
    ((checkNulls ([] : List (Option Val)) 0).metric_value = 0 ∧
      (checkNulls ([] : List (Option Val)) 0).status = Status.pass) ∧
    (checkFormat ([] : List (Option Val)) none 0 =
      Except.ok { metric_value := 0, status := Status.pass, details := "No values to check" }) ∧
    ((checkRange ([] : List (Option Val)) (some (Val.int 0)) none 0).metric_value = 0 ∧
      (checkRange ([] : List (Option Val)) (some (Val.int 0)) none 0).status = Status.pass) ∧
    ((checkUniqueness ([] : List (Option Val)) 0).metric_value = 0 ∧
      (checkUniqueness ([] : List (Option Val)) 0).status = Status.pass) ∧
    ((checkForeignKey ([] : List (Option Val)) fkRef 0).metric_value = 0 ∧
      (checkForeignKey ([] : List (Option Val)) fkRef 0).status = Status.pass) :=
  ⟨zero_denominator_pass.1 [] 0 le_rfl rfl,
   zero_denominator_pass.2.1 [] none 0 rfl,
   zero_denominator_pass.2.2.1 [] (some (Val.int 0)) none 0 le_rfl rfl,
   zero_denominator_pass.2.2.2.1 [] 0 le_rfl rfl,
   zero_denominator_pass.2.2.2.2 [] fkRef 0 le_rfl rfl⟩

/-- C7: every checker's computed metric value lies in [0, 100]: the
violation count never exceeds the denominator. -/
theorem metric_within_bounds :
    (∀ col th, 0 ≤ (checkNulls col th).metric_value ∧
      (checkNulls col th).metric_value ≤ 100) ∧
    (∀ col pat th res, checkFormat col pat th = Except.ok res →
      0 ≤ res.metric_value ∧ res.metric_value ≤ 100) ∧
    (∀ col mn mx th, 0 ≤ (checkRange col mn mx th).metric_value ∧
      (checkRange col mn mx th).metric_value ≤ 100) ∧
    (∀ col th, 0 ≤ (checkUniqueness col th).metric_value ∧
      (checkUniqueness col th).metric_value ≤ 100) ∧
    (∀ col ref th, 0 ≤ (checkForeignKey col ref th).metric_value ∧
      (checkForeignKey col ref th).metric_value ≤ 100) := by
  refine ⟨?_, ?_, ?_, ?_, ?_⟩
  · intro col th
    rw [checkNulls_def]
    exact pctOf_bounds (List.length_filter_le _ _)
  · intro col pat th res hok
    rcases checkFormat_ok_cases hok with ⟨_, hres⟩ | ⟨hne, p, _, hmet, _⟩
    · subst hres
      norm_num
    · rw [hmet]
      exact ratio_pct_bounds (List.length_filter_le _ _)
        (List.length_pos.mpr hne)
  · intro col mn mx th
    by_cases h : mn = none ∧ mx = none
    · rcases h with ⟨h1, h2⟩
      subst h1; subst h2
      rw [checkRange_none_none]
      norm_num
    · rw [checkRange_def col mn mx th h]
      exact pctOf_bounds (List.length_filter_le _ _)
  · intro col th
    rw [checkUniqueness_def]
    exact pctOf_bounds (Nat.sub_le _ _)
  · intro col ref th
    rw [checkForeignKey_def]
    exact pctOf_bounds (List.length_filter_le _ _)

theorem metric_within_bounds_witness :
    (0 ≤ (checkNulls colThird 50).metric_value ∧
      (checkNulls colThird 50).metric_value ≤ 100) ∧
    (0 ≤ fmtRes.metric_value ∧ fmtRes.metric_value ≤ 100) ∧
    (0 ≤ (checkRange colAB (some (Val.int 0)) (some (Val.int 5)) 5).metric_value ∧
      (checkRange colAB (some (Val.int 0)) (some (Val.int 5)) 5).metric_value ≤ 100) ∧
    (0 ≤ (checkUniqueness uniqVals 1).metric_value ∧
      (checkUniqueness uniqVals 1).metric_value ≤ 100) ∧
    (0 ≤ (checkForeignKey fkSrc fkRef 0).metric_value ∧
      (checkForeignKey fkSrc fkRef 0).metric_value ≤ 100) :=
  ⟨metric_within_bounds.1 colThird 50,
   metric_within_bounds.2.1 c2vals (some pyDigitsFull) 10 fmtRes checkFormat_c2_eval,
   metric_within_bounds.2.2.1 colAB (some (Val.int 0)) (some (Val.int 5)) 5,
   metric_within_bounds.2.2.2.1 uniqVals 1,
   metric_within_bounds.2.2.2.2 fkSrc fkRef 0⟩

/-- C2 counterexample: FormatCheck with the pattern from the claim over
the values from the claim does use denominator 2, but the metric is 50%,
not 0% — the string with the valid prefix and a trailing letter IS counted
as violating, because the pattern carries the end anchor. -/
theorem format_digits_metric_fifty_not_zero :
    Except.map CheckResult.metric_value (checkFormat c2vals (some pyDigitsFull) 10) =
      Except.ok 50 ∧ (50 : ℚ) ≠ 0 := by
  constructor
  · rw [checkFormat_c2_eval]
    rfl
  · norm_num

/-- C2 amended: FormatCheck applied with the end-anchored digit pattern to
the four claim values uses denominator 2 (empty string and NULL excluded)
and counts exactly one violation, the value with the valid prefix and a
trailing letter, because the trailing end anchor of the pattern forces a
whole-string match; so the metric is 50%.  The start-anchored-only quirk
applies only to patterns without a trailing end anchor, as the final
conjunct shows. -/
theorem format_digits_end_anchor_behavior :
    checkFormat c2vals (some pyDigitsFull) 10 = Except.ok fmtRes ∧
    (formatValues c2vals).length = 2 ∧
    formatInvalidCount c2vals pyDigitsFull = 1 ∧
    reMatch pyDigitsFull "123" = true ∧
    reMatch pyDigitsFull "12a" = false ∧
    reMatch { core := pyDigitsFull.core, anchorEnd := false } "12a" = true :=
  ⟨checkFormat_c2_eval, by decide, by decide, by decide, by decide, by decide⟩

/-- C8 counterexample: on a column holding an empty string and one
ordinary string, the profiler reports total 2, null count 1 (the empty
string counts as null) and distinct count 2 (the empty string is not NULL
and still counts as a distinct value), violating
distinct_count ≤ total_count − null_count. -/
theorem profile_distinct_exceeds_null_bound :
    profileColumn c8col =
      { total_count := 2, null_count := 1, unique_count := 2 } ∧
    ¬((profileColumn c8col).unique_count ≤
        (profileColumn c8col).total_count - (profileColumn c8col).null_count) := by
  constructor
  · decide
  · decide

/-- C8 amended: null_count ≤ total_count always holds, and distinct_count
is bounded by total_count minus the number of genuine SQL NULLs; the
claimed bound with null_count fails because null_count also counts empty
strings while the distinct count excludes only NULLs. -/
theorem profile_count_bounds (col : List (Option Val)) :
    (profileColumn col).null_count ≤ (profileColumn col).total_count ∧
    (profileColumn col).unique_count ≤
      (profileColumn col).total_count - col.count none := by
  constructor
  · exact List.length_filter_le _ _
  · have h1 := distinctCount_le col
    have h2 := length_filterMap_id_add_count_none col
    simp only [profileColumn]
    omega

/-- C10 counterexample: the detail strings of the uniqueness and
foreign-key checkers do not begin with violating count, slash,
denominator — they carry only the violating count. -/
theorem uniq_fk_details_lack_denominator :
    (checkUniqueness uniqVals 1).details = "2 duplicates (40.00%)" ∧
    (checkUniqueness uniqVals 1).details.take 3 ≠ "2/5" ∧
    (checkForeignKey fkSrc fkRef 0).details = "1 orphan records (25.00%)" ∧
    (checkForeignKey fkSrc fkRef 0).details.take 3 ≠ "1/4" := by
  refine ⟨?_, ?_, ?_, ?_⟩
  · rw [checkUniqueness_uniqVals_eval]
  · rw [checkUniqueness_uniqVals_eval]
    decide
  · rw [checkForeignKey_fk_eval]
  · rw [checkForeignKey_fk_eval]
    decide

/-- C10 amended: the null, format and range checkers produce details of
the form violating/total description (pct%); the uniqueness and
foreign-key checkers omit the slash and the denominator, producing
violating duplicates (pct%) and violating orphan records (pct%); in all
cases the displayed percentage is the metric rounded to two decimals
while metric_value itself keeps full precision, as the closing concrete
conjunct shows with metric 200/3 displayed as 66.67. -/
theorem details_shapes :
    (∀ col th, (checkNulls col th).details =
      toString (nullishCount col) ++ "/" ++ toString col.length ++
        " null values (" ++ fmt2 ((checkNulls col th).metric_value) ++ "%)") ∧
    (∀ col p th, formatValues col ≠ [] → ∃ r,
      checkFormat col (some p) th = Except.ok r ∧
      r.details = toString (formatInvalidCount col p) ++ "/" ++
        toString (formatValues col).length ++ " invalid format (" ++
        fmt2 r.metric_value ++ "%)" ∧
      r.metric_value =
        (formatInvalidCount col p : ℚ) / ((formatValues col).length : ℚ) * 100) ∧
    (∀ col mn mx th, ¬(mn = none ∧ mx = none) →
      (checkRange col mn mx th).details =
        toString (rangeViolationCount col mn mx) ++ "/" ++ toString (nonNullCount col) ++
          " out of range (" ++ fmt2 ((checkRange col mn mx th).metric_value) ++ "%)") ∧
    (∀ col th, (checkUniqueness col th).details =
      toString (dupCount col) ++ " duplicates (" ++
        fmt2 ((checkUniqueness col th).metric_value) ++ "%)") ∧
    (∀ col ref th, (checkForeignKey col ref th).details =
      toString (orphanCount col ref) ++ " orphan records (" ++
        fmt2 ((checkForeignKey col ref th).metric_value) ++ "%)") ∧
    ((checkNulls colThird 50).metric_value = 200 / 3 ∧ fmt2 (200 / 3) = "66.67") := by
  refine ⟨?_, ?_, ?_, ?_, ?_, ?_, ?_⟩
  · intro col th
    rw [checkNulls_def]
  · intro col p th hne
    refine ⟨_, checkFormat_some_def col p th hne, rfl, rfl⟩
  · intro col mn mx th h
    rw [checkRange_def col mn mx th h]
  · intro col th
    rw [checkUniqueness_def]
  · intro col ref th
    rw [checkForeignKey_def]
  · rw [checkNulls_colThird_eval]
  · rw [fmt2_eq (200 / 3) 6667 (by rw [round_eq]; norm_num)]
    decide

theorem details_shapes_witness :
    (∃ r, checkFormat c2vals (some pyDigitsFull) 10 = Except.ok r ∧
      r.details = toString (formatInvalidCount c2vals pyDigitsFull) ++ "/" ++
        toString (formatValues c2vals).length ++ " invalid format (" ++
        fmt2 r.metric_value ++ "%)" ∧
      r.metric_value = (formatInvalidCount c2vals pyDigitsFull : ℚ) /
        ((formatValues c2vals).length : ℚ) * 100) ∧
    (checkRange colAB (some (Val.int 0)) (some (Val.int 5)) 5).details =
      toString (rangeViolationCount colAB (some (Val.int 0)) (some (Val.int 5))) ++ "/" ++
        toString (nonNullCount colAB) ++ " out of range (" ++
        fmt2 ((checkRange colAB (some (Val.int 0)) (some (Val.int 5)) 5).metric_value) ++
        "%)" :=
  ⟨details_shapes.2.1 c2vals pyDigitsFull 10 (by decide),
   details_shapes.2.2.1 colAB (some (Val.int 0)) (some (Val.int 5)) 5 (by simp)⟩

/-- C3 counterexample: a rule whose checker raises (here: its table does
not exist) is persisted as an ERROR row, but the list returned to the
caller is empty — the returned list does not contain one result per
active rule when a checker raises. -/
theorem error_results_not_returned :
    runQualityChecks dbT [badTableRule] =
      { returned := []
        persisted := [{ rule_id := 7, table_name := "missing", column_name := "c"
                        metric_value := 0, threshold_value := 5
                        status := Status.error
                        details := "Invalid table name: missing" }] } ∧
    (runQualityChecks dbT [badTableRule]).returned.length ≠ 1 := by
  constructor
  · decide
  · decide

/-- C3 amended: when a checker raises, the engine catches the exception,
persists a result with status Error, metric 0 and details equal to the
failure message, and continues with the remaining rules — the persisted
sequence holds one row per non-skipped rule — but the list returned to
the caller contains only the successfully evaluated rules; Error results
are persisted, not returned. -/
theorem run_isolates_failures (db : DB) (rules : List QualityRule) :
    runQualityChecks db rules =
      { returned := rules.filterMap (returnOfRule db)
        persisted := rules.filterMap (persistOfRule db) } ∧
    (∀ r msg, evalRule db r = some (Except.error msg) →
      persistOfRule db r = some (persistErr r msg) ∧ returnOfRule db r = none) ∧
    (runQualityChecks db rules).persisted.length =
      (rules.filter fun r => (evalRule db r).isSome).length := by
  refine ⟨runQualityChecks_eq db rules, ?_, ?_⟩
  · intro r msg h
    unfold persistOfRule returnOfRule
    rw [h]
    exact ⟨rfl, rfl⟩
  · have h2 := congrArg List.length (persisted_rule_ids db rules)
    simpa using h2

theorem run_isolates_failures_witness :
    persistOfRule dbT badTableRule =
      some (persistErr badTableRule "Invalid table name: missing") ∧
    returnOfRule dbT badTableRule = none :=
  (run_isolates_failures dbT [badTableRule]).2.1 badTableRule
    "Invalid table name: missing" (by decide)

/-- C4 counterexample: a FormatCheck rule with no configured pattern over
a column holding values is not skipped — the missing key reaches the
checker, raises, and an ERROR result is persisted for the rule. -/
theorem missing_pattern_rule_not_skipped :
    evalRule dbT noPatternRule =
      some (Except.error "TypeError: first argument must be string or compiled pattern") ∧
    (runQualityChecks dbT [noPatternRule]).persisted =
      [persistErr noPatternRule
        "TypeError: first argument must be string or compiled pattern"] ∧
    (runQualityChecks dbT [noPatternRule]).persisted.length ≠ 0 := by
  refine ⟨?_, ?_, ?_⟩
  · decide
  · decide
  · decide

/-- C4 amended: only a rule whose kind is unrecognized is skipped with no
result at all; a missing required configuration key does not skip the
rule — for a FormatCheck with no pattern and at least one value to check
the checker raises and an Error result is recorded, and likewise for a
ForeignKeyCheck with no reference table. -/
theorem unknown_kind_only_skip :
    (∀ (db : DB) (r : QualityRule), r.rule_type ≠ "null_check" →
      r.rule_type ≠ "format_check" → r.rule_type ≠ "range_check" →
      r.rule_type ≠ "uniqueness_check" → r.rule_type ≠ "foreign_key_check" →
      evalRule db r = none) ∧
    (∀ (db : DB) (r : QualityRule) col, r.rule_type = "format_check" →
      r.config.pattern = none →
      getColumn db r.table_name r.column_name = Except.ok col →
      formatValues col ≠ [] →
      evalRule db r =
        some (Except.error "TypeError: first argument must be string or compiled pattern")) ∧
    (∀ (db : DB) (r : QualityRule), r.rule_type = "foreign_key_check" →
      r.config.reference_table = none →
      validateTable db (some r.table_name) = Except.ok () →
      evalRule db r = some (Except.error "Invalid table name: None")) := by
  refine ⟨?_, ?_, ?_⟩
  · intro db r h1 h2 h3 h4 h5
    unfold evalRule
    rw [if_neg h1, if_neg h2, if_neg h3, if_neg h4, if_neg h5]
  · intro db r col hk hpat hcol hne
    have hv := validateTable_of_getColumn hcol
    unfold evalRule
    rw [if_neg (by rw [hk]; decide), if_pos hk]
    rw [hv, except_bind_ok, hcol, except_bind_ok, hpat]
    rw [checkFormat_none_pattern col r.threshold_value hne]
  · intro db r hk href hval
    unfold evalRule
    rw [if_neg (by rw [hk]; decide), if_neg (by rw [hk]; decide),
      if_neg (by rw [hk]; decide), if_neg (by rw [hk]; decide), if_pos hk]
    rw [hval, except_bind_ok, href]
    rfl

theorem unknown_kind_only_skip_witness :
    evalRule dbT unknownRule = none ∧
    evalRule dbT noPatternRule =
      some (Except.error "TypeError: first argument must be string or compiled pattern") ∧
    evalRule dbT noRefRule = some (Except.error "Invalid table name: None") :=
  ⟨unknown_kind_only_skip.1 dbT unknownRule (by decide) (by decide) (by decide)
      (by decide) (by decide),
   unknown_kind_only_skip.2.1 dbT noPatternRule colAB rfl rfl (by decide) (by decide),
   unknown_kind_only_skip.2.2 dbT noRefRule rfl rfl (by decide)⟩

/-- C5 counterexample: three valid rules supplied with ids 3, 1, 2 are
returned and persisted in exactly that supplied order, not sorted into
ascending rule-id order 1, 2, 3. -/
theorem run_emits_in_supplied_order :
    (runQualityChecks dbT [ruleNull 3, ruleNull 1, ruleNull 2]).returned.map
        ReturnedResult.rule_id = [3, 1, 2] ∧
    (runQualityChecks dbT [ruleNull 3, ruleNull 1, ruleNull 2]).persisted.map
        PersistedResult.rule_id = [3, 1, 2] ∧
    ([3, 1, 2] : List ℕ) ≠ [1, 2, 3] := by
  refine ⟨?_, ?_, ?_⟩
  · decide
  · decide
  · decide

/-- C5 amended: the engine performs no reordering — the returned and
persisted result sequences carry the rule ids of the non-skipped rules in
exactly the order the rule store supplied them (the SQL that loads rules
has no ORDER BY; ascending order is observed only when the store already
supplies rules in ascending rowid order). -/
theorem run_order_preserves_input (db : DB) (rules : List QualityRule) :
    (runQualityChecks db rules).returned.map ReturnedResult.rule_id =
      (rules.filter (evalOk db)).map QualityRule.rule_id ∧
    (runQualityChecks db rules).persisted.map PersistedResult.rule_id =
      (rules.filter fun r => (evalRule db r).isSome).map QualityRule.rule_id :=
  ⟨returned_rule_ids db rules, persisted_rule_ids db rules⟩
